import Mathlib

/-!
Shallow embedding of the result-aggregation and publish pipeline of the
pytest-testrail plugin (src/pytest_testrail/plugin.py and
src/pytest_testrail/testrail_api.py), together with proofs about the
behaviour of its core operations.

Conventions of the embedding:
* Python dicts with fixed string keys become Lean functions `String → Option _`
  or structures; a missing-key access (`KeyError`) surfaces as `Option`/`Except`.
* Python truthiness of strings/ints/optional values is modelled explicitly
  (`none` and `""` and `0` are falsy).
* `rep.duration` is a Python float; it is modelled as `ℚ`.  Python 3 `round`
  is round-half-to-even; it is modelled on `ℚ` by integer arithmetic on the
  numerator and denominator (`pythonRound`).
* `self.results.sort(key=itemgetter('case_id'))` is Python's stable in-place
  sort keyed by `case_id`; a stable sort is uniquely determined by the key, so
  it is modelled by insertion sort with the non-strict key order (`sortResults`).
* The remote service is modelled by the decoded JSON payloads the plugin reads:
  responses carry an optional `error` field and the documented result fields.
-/

namespace PytestTestrail

/-- The `TESTRAIL_TEST_STATUS` dict of plugin.py: canonical TestRail status
codes ("passed" 1, "blocked" 2, "untested" 3, "retest" 4, "failed" 5). -/
def TESTRAIL_TEST_STATUS : String → Option Nat := fun s =>
  if s = "passed" then some 1
  else if s = "blocked" then some 2
  else if s = "untested" then some 3
  else if s = "retest" then some 4
  else if s = "failed" then some 5
  else none

/-- The `PYTEST_TO_TESTRAIL_STATUS` dict of plugin.py, built by indexing
`TESTRAIL_TEST_STATUS` exactly as the source does. -/
def PYTEST_TO_TESTRAIL_STATUS : String → Option Nat := fun s =>
  if s = "passed" then TESTRAIL_TEST_STATUS "passed"
  else if s = "failed" then TESTRAIL_TEST_STATUS "failed"
  else if s = "skipped" then TESTRAIL_TEST_STATUS "blocked"
  else none

/-- `get_test_outcome` of plugin.py: a plain dict lookup; an unrecognized
outcome raises `KeyError`, modelled by `none`. -/
def get_test_outcome (outcome : String) : Option Nat :=
  PYTEST_TO_TESTRAIL_STATUS outcome

/-- `COMMENT_SIZE_LIMIT` of plugin.py. -/
def COMMENT_SIZE_LIMIT : Nat := 4000000

/-- Python truthiness of an optional string: `None` and `''` are falsy. -/
def truthyOptStr : Option String → Bool
  | none => false
  | some s => !(s == "")

/-- One element of `self.results` as appended by `add_result` of plugin.py. -/
structure ResultRecord where
  case_id : Nat
  status_id : Nat
  comment : String
  duration : ℚ
  defects : Option String
  test_parametrize : Option String
deriving DecidableEq

/-- `PyTestRailPlugin.add_result`: appends one record per given test id to
`self.results`. -/
def add_result (results : List ResultRecord) (test_ids : List Nat) (status : Nat)
    (comment : String) (defects : Option String) (duration : ℚ)
    (test_parametrize : Option String) : List ResultRecord :=
  results ++ test_ids.map (fun test_id =>
    { case_id := test_id
      status_id := status
      comment := comment
      duration := duration
      defects := defects
      test_parametrize := test_parametrize })

/-- Python string slice `s[-n:]`: the last `min n (length s)` characters. -/
def lastChars (n : Nat) (s : String) : String :=
  String.mk (s.data.drop (s.data.length - n))

/-- Python `s.replace('\n', '\n    ')`: every newline gets four spaces
appended (the single-character pattern makes this a per-character map). -/
def indentNewlines (s : String) : String :=
  String.mk (s.data.flatMap (fun c =>
    if c = '\n' then ['\n', ' ', ' ', ' ', ' '] else [c]))

/-- `PyTestRailPlugin._set_entry_comment_text`: `acc` is the value of
`entry['comment']` already accumulated by `_create_result_entry` (the
parametrize block).  A non-empty comment appends the optional custom preamble,
the "# Pytest result: #" header, a truncation marker when the comment exceeds
`COMMENT_SIZE_LIMIT`, and the indented tail slice of the comment.  An empty
comment REPLACES the whole entry comment by `self.custom_comment` (which may
be `None`). -/
def set_entry_comment_text (custom_comment : Option String) (comment : String)
    (acc : String) : Option String :=
  if comment ≠ "" then
    some (acc
      ++ (if truthyOptStr custom_comment then custom_comment.getD "" ++ "\n" else "")
      ++ "# Pytest result: #\n"
      ++ (if COMMENT_SIZE_LIMIT < comment.length then "Log truncated\n...\n" else "")
      ++ "    " ++ indentNewlines (lastChars COMMENT_SIZE_LIMIT comment))
  else custom_comment

/-- Python 3 `round` (round-half-to-even) on a rational, by integer
arithmetic: `f` is the floor, `rem` the remainder of the numerator, and the
fractional part is compared with 1/2 by cross-multiplication with the
(positive) denominator. -/
def pythonRound (q : ℚ) : ℤ :=
  let f : ℤ := Int.fdiv q.num (q.den : ℤ)
  let rem : ℤ := q.num - f * (q.den : ℤ)
  if 2 * rem < (q.den : ℤ) then f
  else if (q.den : ℤ) < 2 * rem then f + 1
  else if f % 2 = 0 then f else f + 1

/-- One wire entry of the batch POSTed to `add_results_for_cases`, as built by
`PyTestRailPlugin._create_result_entry` (absent JSON keys are `none`). -/
structure WireEntry where
  status_id : Nat
  case_id : Nat
  defects : Option String
  version : Option String
  comment : Option String
  elapsed : Option String
deriving DecidableEq

/-- `PyTestRailPlugin._create_result_entry` for one result record:
the entry comment starts with the "# Parametrized test: #" block when the
record has a truthy parametrize value, then `_set_entry_comment_text` runs;
a truthy duration is floored at 1 second, else rounded by Python `round`. -/
def create_result_entry (version : String) (custom_comment : Option String)
    (r : ResultRecord) : WireEntry :=
  let acc : String :=
    if truthyOptStr r.test_parametrize then
      "# Parametrized test: #\n" ++ r.test_parametrize.getD "" ++ "\n\n"
    else ""
  { status_id := r.status_id
    case_id := r.case_id
    defects := r.defects
    version := if version ≠ "" then some version else none
    comment := set_entry_comment_text custom_comment r.comment acc
    elapsed :=
      if r.duration ≠ 0 then
        some (toString (if r.duration < 1 then (1 : ℤ)
                        else pythonRound r.duration) ++ "s")
      else none }

/-- The key order used by `self.results.sort(key=itemgetter('case_id'))`. -/
def byCaseId (a b : ResultRecord) : Prop := a.case_id ≤ b.case_id

instance : DecidableRel byCaseId :=
  fun a b => (inferInstanceAs (Decidable (a.case_id ≤ b.case_id)))

instance : IsTotal ResultRecord byCaseId :=
  ⟨fun a b => Nat.le_total a.case_id b.case_id⟩

instance : IsTrans ResultRecord byCaseId :=
  ⟨fun _ _ _ hab hbc => Nat.le_trans hab hbc⟩

/-- The in-place `self.results.sort(key=itemgetter('case_id'))` of
`add_results`: Python's sort is stable, and a stable sort by a key is uniquely
determined, so insertion sort with the non-strict key order models it. -/
def sortResults (l : List ResultRecord) : List ResultRecord :=
  List.insertionSort byCaseId l

/-- One test row of a `get_tests/{run_id}` response. -/
structure TestInfo where
  id : Nat
  case_id : Nat
  status_id : Nat
deriving DecidableEq

/-- The blocked case ids collected by
`PyTestRailPlugin._exclude_blocked_tests_from_results`: case ids of fetched
tests whose status equals `TESTRAIL_TEST_STATUS["blocked"]`. -/
def blocked_case_ids (tests : List TestInfo) : List Nat :=
  (tests.filter (fun t => TESTRAIL_TEST_STATUS "blocked" == some t.status_id)).map
    (fun t => t.case_id)

/-- The destructive filter of `_exclude_blocked_tests_from_results`:
`self.results` is reassigned to the records whose case id is `not in` the
blocked list. -/
def exclude_blocked_tests_from_results (tests : List TestInfo)
    (results : List ResultRecord) : List ResultRecord :=
  results.filter (fun r => decide (r.case_id ∉ blocked_case_ids tests))

/-- The state change and batch construction of `PyTestRailPlugin.add_results`
up to the POST: `self.results` is sorted in place, then (when
`publish_blocked` is off) destructively filtered against the target run's
blocked cases; the wire batch maps `_create_result_entry` over the survivors.
Returns the new `self.results` and the built batch. -/
def add_results_batch (version : String) (custom_comment : Option String)
    (publish_blocked : Bool) (final_tests : List TestInfo)
    (results : List ResultRecord) : List ResultRecord × List WireEntry :=
  let sorted := sortResults results
  let kept := if publish_blocked then sorted
              else exclude_blocked_tests_from_results final_tests sorted
  (kept, kept.map (create_result_entry version custom_comment))

/-- The testplan loop of `pytest_sessionfinish`: `add_results` runs once per
target run id, threading the shared mutable `self.results` from one target to
the next.  Returns the final `self.results` and the batch built per target. -/
def session_publish (version : String) (custom_comment : Option String)
    (publish_blocked : Bool) (tests_of : Nat → List TestInfo)
    (results : List ResultRecord) :
    List Nat → List ResultRecord × List (Nat × List WireEntry)
  | [] => (results, [])
  | t :: ts =>
    let step := add_results_batch version custom_comment publish_blocked
      (tests_of t) results
    let rest := session_publish version custom_comment publish_blocked tests_of
      step.1 ts
    (rest.1, (t, step.2) :: rest.2)

/-- `APIClient.get_error`: returns the response's error field when it is
present and truthy, else `None`. -/
def get_error (error_field : Option String) : Option String :=
  match error_field with
  | none => none
  | some s => if s = "" then none else some s

/-- `PyTestRailPlugin.is_testplan_available`: `False` when `get_plan` reports
an error, else the negation of the plan's `is_completed` flag.  The argument
is `none` when the response carried an error, `some c` for flag `c`. -/
def is_testplan_available (plan_is_completed : Option Bool) : Bool :=
  match plan_is_completed with
  | none => false
  | some c => !c

/-- `PyTestRailPlugin.is_testrun_available`, same shape as the plan check. -/
def is_testrun_available (run_is_completed : Option Bool) : Bool :=
  match run_is_completed with
  | none => false
  | some c => !c

/-- The remote answers consumed while selecting the run target:
`is_completed` flags of the configured plan/run (`none` = the GET errored),
and the id returned by `add_run` (`none` = the POST errored). -/
structure RemoteSel where
  plan_is_completed : Option Bool
  run_is_completed : Option Bool
  new_run_id : Option Nat

/-- Which branch `pytest_collection_modifyitems` took. -/
inductive RunSelection where
  | planSelected
  | runSelected
  | createRun (case_ids : List Nat)
deriving DecidableEq

/-- The run-target selection of `pytest_collection_modifyitems`: plan first
(zeroing the run id), else configured run (zeroing the plan id), else
`create_test_run` with the full discovered case-id list (on success the new
run id is stored; on failure `self.testrun_id` keeps its old value). -/
def pytest_collection_modifyitems (testrun_id testplan_id : Nat)
    (re : RemoteSel) (tr_keys : List Nat) : Nat × Nat × RunSelection :=
  if testplan_id ≠ 0 ∧ is_testplan_available re.plan_is_completed = true then
    (0, testplan_id, RunSelection.planSelected)
  else if testrun_id ≠ 0 ∧ is_testrun_available re.run_is_completed = true then
    (testrun_id, 0, RunSelection.runSelected)
  else
    match re.new_run_id with
    | some new_id => (new_id, testplan_id, RunSelection.createRun tr_keys)
    | none => (testrun_id, testplan_id, RunSelection.createRun tr_keys)

/-- A publish destination as dispatched by `pytest_sessionfinish`. -/
inductive PublishTarget where
  | toRun (id : Nat)
  | toPlan (id : Nat)
deriving DecidableEq

/-- The `if self.testrun_id: ... elif self.testplan_id: ...` dispatch of
`pytest_sessionfinish`: the session publishes through the run id when set,
else through the plan id when set, else not at all. -/
def session_publish_target (testrun_id testplan_id : Nat) :
    Option PublishTarget :=
  if testrun_id ≠ 0 then some (PublishTarget.toRun testrun_id)
  else if testplan_id ≠ 0 then some (PublishTarget.toPlan testplan_id)
  else none

/-- One nested run of a `get_plan` response entry. -/
structure PlanRun where
  id : Nat
  is_completed : Bool
deriving DecidableEq

/-- One entry of a `get_plan` response. -/
structure PlanEntry where
  runs : List PlanRun
deriving DecidableEq

/-- A decoded `get_plan` response. -/
structure PlanResponse where
  error : Option String
  entries : List PlanEntry
deriving DecidableEq

/-- `PyTestRailPlugin.get_available_testruns`: on error the collected list
stays empty; otherwise every nested run whose `is_completed` flag is false
contributes its id, in plan order. -/
def get_available_testruns (resp : PlanResponse) : List Nat :=
  match get_error resp.error with
  | some _ => []
  | none => resp.entries.flatMap (fun e =>
      (e.runs.filter (fun r => !r.is_completed)).map (fun r => r.id))

/-- The list of run ids `pytest_sessionfinish` feeds to `add_results`:
the run id alone when set, else the open runs of the configured plan. -/
def publish_targets (testrun_id testplan_id : Nat) (planResp : PlanResponse) :
    List Nat :=
  if testrun_id ≠ 0 then [testrun_id]
  else if testplan_id ≠ 0 then get_available_testruns planResp
  else []

/-- One created result of an `add_results_for_cases` response. -/
structure BatchItem where
  id : Nat
  test_id : Nat
deriving DecidableEq

/-- A decoded `add_results_for_cases` response: either a service error or the
list of created results. -/
structure BatchResponse where
  error : Option String
  items : List BatchItem

/-- A Python runtime exception escaping the publish phase. -/
inductive PyErr where
  | keyError (case_id : Nat)
  | typeError
deriving DecidableEq

/-- `self.screenshots.get(case_id, None)`: dict modelled as an assoc list. -/
def screenshots_get (ss : List (Nat × String)) (c : Nat) : Option String :=
  (ss.find? (fun p => p.1 == c)).map (fun p => p.2)

/-- The inner `for test in self.final_tests` scan of `add_results`: `ss_path`
is (re)assigned on every test whose id equals the created result's test id. -/
def find_ss_path (final_tests : List TestInfo) (ss : List (Nat × String))
    (test_id : Nat) : Option String :=
  final_tests.foldl (fun acc t =>
    if t.id == test_id then screenshots_get ss t.case_id else acc) none

/-- The diagnostic printed on an attachment error.  The source interpolates
`self.screenshots[test["case_id"]]` where `test` is the variable leaked from
the completed `for test in self.final_tests` loop, i.e. the LAST fetched
test; a `[]` lookup on a missing key raises `KeyError` (and `test` is `None`,
a `TypeError`, when the fetched list was empty). -/
def attach_error_message (final_tests : List TestInfo)
    (ss : List (Nat × String)) (result_id : Nat) : Except PyErr String :=
  match final_tests.getLast? with
  | none => Except.error PyErr.typeError
  | some t =>
    match screenshots_get ss t.case_id with
    | none => Except.error (PyErr.keyError t.case_id)
    | some p =>
      Except.ok ("Unable to attach file " ++ p ++ " to test ID "
        ++ toString result_id)

/-- The attachment loop of `add_results` over the created results: each item
with a truthy screenshot path is uploaded; an error response to the upload
produces the diagnostic of `attach_error_message` and the loop continues.
Returns the performed uploads (result id, path) and the printed diagnostics,
or the Python exception that escaped. -/
def add_results_attachments (final_tests : List TestInfo)
    (ss : List (Nat × String)) (attach_error_of : Nat → Option String)
    (items : List BatchItem) :
    Except PyErr (List (Nat × String) × List String) :=
  items.foldlM (fun acc item =>
    match find_ss_path final_tests ss item.test_id with
    | none => Except.ok acc
    | some p =>
      if p = "" then Except.ok acc
      else
        match get_error (attach_error_of item.id) with
        | some _ => do
          let msg ← attach_error_message final_tests ss item.id
          Except.ok (acc.1 ++ [(item.id, p)], acc.2 ++ [msg])
        | none => Except.ok (acc.1 ++ [(item.id, p)], acc.2)) ([], [])

/-- The response-handling tail of `add_results`: a service-level error in the
batch response is reported as a diagnostic and nothing is uploaded; otherwise
the attachment loop runs. -/
def add_results_publish (final_tests : List TestInfo)
    (ss : List (Nat × String)) (attach_error_of : Nat → Option String)
    (resp : BatchResponse) :
    Except PyErr (List (Nat × String) × List String) :=
  match get_error resp.error with
  | some e =>
    Except.ok ([], ["Info: Testcases not published for following reason: " ++ e])
  | none => add_results_attachments final_tests ss attach_error_of resp.items

/-- Key-class order on wire entries (non-strict). -/
def entryLeByCase (e1 e2 : WireEntry) : Prop := e1.case_id ≤ e2.case_id

instance : DecidableRel entryLeByCase :=
  fun e1 e2 => (inferInstanceAs (Decidable (e1.case_id ≤ e2.case_id)))

/-- Key-class order on wire entries (strict). -/
def entryLtByCase (e1 e2 : WireEntry) : Prop := e1.case_id < e2.case_id

instance : DecidableRel entryLtByCase :=
  fun e1 e2 => (inferInstanceAs (Decidable (e1.case_id < e2.case_id)))

/-- Substring test used to state properties about built comments. -/
def strContains (s pat : String) : Bool :=
  (List.range (s.data.length + 1)).any (fun i =>
    List.isPrefixOf pat.data (s.data.drop i))

/-- A slice `s[-n:]` of a string that fits in `n` characters is the whole
string. -/
theorem lastChars_of_le (n : Nat) (s : String) (h : s.length ≤ n) :
    lastChars n s = s := by
  cases s with
  | mk d =>
    have h2 : d.length - n = 0 := Nat.sub_eq_zero_of_le h
    show String.mk (d.drop (d.length - n)) = String.mk d
    rw [h2, List.drop_zero]

/-- Claim C6: the outcome-to-status mapping sends "passed" to 1, "failed" to
5 and "skipped" to 2 (blocked, not untested); any outcome outside the
recognized vocabulary misses the dict (`KeyError`, modelled `none`) — a
caller contract violation, not a handled runtime path. -/
theorem c6_outcome_mapping :
    get_test_outcome "passed" = some 1 ∧ get_test_outcome "failed" = some 5 ∧
    get_test_outcome "skipped" = some 2 ∧
    ∀ s : String, s ≠ "passed" → s ≠ "failed" → s ≠ "skipped" →
      get_test_outcome s = none := by
  refine ⟨rfl, rfl, rfl, fun s h1 h2 h3 => ?_⟩
  simp [get_test_outcome, PYTEST_TO_TESTRAIL_STATUS, h1, h2, h3]

/-- Witness for C6 at the unrecognized outcome "xfailed". -/
theorem c6_witness :
    ("xfailed" ≠ "passed" ∧ "xfailed" ≠ "failed" ∧ "xfailed" ≠ "skipped")
    ∧ get_test_outcome "xfailed" = none :=
  ⟨by decide,
    c6_outcome_mapping.2.2.2 "xfailed" (by decide) (by decide) (by decide)⟩

/-- Claim C5: a zero duration yields no `elapsed` field; a duration strictly
between 0 and 1 yields "1s" (never rounded down to 0); a duration of at least
1 yields Python `round` of the duration followed by "s". -/
theorem c5_elapsed_mapping (version : String) (custom_comment : Option String)
    (r : ResultRecord) :
    (r.duration = 0 →
      (create_result_entry version custom_comment r).elapsed = none)
    ∧ (0 < r.duration → r.duration < 1 →
        (create_result_entry version custom_comment r).elapsed = some "1s")
    ∧ (1 ≤ r.duration →
        (create_result_entry version custom_comment r).elapsed =
          some (toString (pythonRound r.duration) ++ "s")) := by
  refine ⟨fun h0 => ?_, fun hpos hlt => ?_, fun hge => ?_⟩
  · simp [create_result_entry, h0]
  · have hne : r.duration ≠ 0 := ne_of_gt hpos
    simp [create_result_entry, hne, hlt]
    rfl
  · have hne : r.duration ≠ 0 := ne_of_gt (lt_of_lt_of_le zero_lt_one hge)
    have hnlt : ¬ (r.duration < 1) := not_lt.mpr hge
    simp [create_result_entry, hne, hnlt]

/-- Witness for C5 at durations 0, 3/10 (i.e. 0.3) and 23/5 (i.e. 4.6). -/
theorem c5_witness :
    (create_result_entry "" none ⟨1, 1, "", 0, none, none⟩).elapsed = none
    ∧ ((0 : ℚ) < Rat.divInt 3 10 ∧ Rat.divInt 3 10 < 1
        ∧ (create_result_entry "" none
            ⟨1, 1, "", Rat.divInt 3 10, none, none⟩).elapsed = some "1s")
    ∧ ((1 : ℚ) ≤ Rat.divInt 23 5
        ∧ (create_result_entry "" none
            ⟨1, 1, "", Rat.divInt 23 5, none, none⟩).elapsed = some "5s") := by
  refine ⟨(c5_elapsed_mapping "" none _).1 rfl,
    ⟨by decide, by decide, (c5_elapsed_mapping "" none _).2.1 (by decide) (by decide)⟩,
    ⟨by decide, ?_⟩⟩
  have h := (c5_elapsed_mapping "" none
    ⟨1, 1, "", Rat.divInt 23 5, none, none⟩).2.2 (by decide)
  rw [h]
  decide

/-- Claim C4: a comment longer than `COMMENT_SIZE_LIMIT` characters makes the
pytest-result block consist of the truncation marker followed by the indented
last `COMMENT_SIZE_LIMIT` characters of the comment; a comment at or under
the limit is reproduced in full (indented) with no marker inserted. -/
theorem c4_comment_truncation (custom_comment : Option String) (acc : String)
    (comment : String) (h : comment ≠ "") :
    (COMMENT_SIZE_LIMIT < comment.length →
      set_entry_comment_text custom_comment comment acc =
        some (acc
          ++ (if truthyOptStr custom_comment then custom_comment.getD "" ++ "\n"
              else "")
          ++ "# Pytest result: #\n" ++ "Log truncated\n...\n"
          ++ "    " ++ indentNewlines (lastChars COMMENT_SIZE_LIMIT comment)))
    ∧ (comment.length ≤ COMMENT_SIZE_LIMIT →
      set_entry_comment_text custom_comment comment acc =
        some (acc
          ++ (if truthyOptStr custom_comment then custom_comment.getD "" ++ "\n"
              else "")
          ++ "# Pytest result: #\n"
          ++ "    " ++ indentNewlines comment)) := by
  constructor
  · intro hlen
    simp [set_entry_comment_text, h, hlen]
  · intro hlen
    have hnot : ¬ (COMMENT_SIZE_LIMIT < comment.length) := not_lt.mpr hlen
    simp [set_entry_comment_text, h, hnot, lastChars_of_le _ _ hlen]

/-- Witness for C4: a 4000001-character comment is truncated with the marker
prepended to its indented tail. -/
theorem c4_witness :
    (String.mk (List.replicate 4000001 'a') ≠ ""
      ∧ COMMENT_SIZE_LIMIT < (String.mk (List.replicate 4000001 'a')).length)
    ∧ set_entry_comment_text none (String.mk (List.replicate 4000001 'a')) "" =
        some (""
          ++ (if truthyOptStr none then (none : Option String).getD "" ++ "\n"
              else "")
          ++ "# Pytest result: #\n" ++ "Log truncated\n...\n"
          ++ "    " ++ indentNewlines (lastChars COMMENT_SIZE_LIMIT
              (String.mk (List.replicate 4000001 'a')))) := by
  have hne : String.mk (List.replicate 4000001 'a') ≠ "" := by
    intro hEq
    have h2 : (List.replicate 4000001 'a').length = ("" : String).data.length :=
      congrArg (fun s => s.data.length) hEq
    rw [List.length_replicate] at h2
    exact absurd h2 (by decide)
  have hlen :
      COMMENT_SIZE_LIMIT < (String.mk (List.replicate 4000001 'a')).length := by
    show COMMENT_SIZE_LIMIT < (List.replicate 4000001 'a').length
    rw [List.length_replicate]
    decide
  exact ⟨⟨hne, hlen⟩, (c4_comment_truncation none "" _ hne).1 hlen⟩

/-- Claim C3 (amended): for a non-empty log text the wire comment is the
"# Parametrized test: #" block (when the record has a truthy parametrize
value) FIRST, then the optional custom preamble, then the "# Pytest result: #"
block with the possibly-truncated indented log; for an empty log text the
whole comment is replaced by the custom preamble (possibly absent), dropping
any parametrize block. -/
theorem c3_comment_blocks (version : String) (custom_comment : Option String)
    (r : ResultRecord) :
    (r.comment ≠ "" →
      (create_result_entry version custom_comment r).comment =
        some ((if truthyOptStr r.test_parametrize then
                  "# Parametrized test: #\n" ++ r.test_parametrize.getD ""
                    ++ "\n\n"
                else "")
          ++ (if truthyOptStr custom_comment then custom_comment.getD "" ++ "\n"
              else "")
          ++ "# Pytest result: #\n"
          ++ (if COMMENT_SIZE_LIMIT < r.comment.length then "Log truncated\n...\n"
              else "")
          ++ "    " ++ indentNewlines (lastChars COMMENT_SIZE_LIMIT r.comment)))
    ∧ (r.comment = "" →
      (create_result_entry version custom_comment r).comment = custom_comment) := by
  constructor
  · intro h
    simp [create_result_entry, set_entry_comment_text, h]
  · intro h
    simp [create_result_entry, set_entry_comment_text, h]

/-- Counterexample to C3 as stated: a record with a parametrize value but an
empty log text yields a comment equal to the custom preamble alone — the
rendered parametrize block is absent from the wire comment. -/
theorem c3_counterexample :
    (create_result_entry "" (some "hello")
        ⟨101, 1, "", 0, none, some "x: 1"⟩).comment = some "hello"
    ∧ strContains "hello" "# Parametrized test: #" = false :=
  ⟨rfl, by decide⟩

/-- Witness for C3 at a record with parametrize value, custom preamble and a
non-empty log text. -/
theorem c3_witness :
    (("log line" : String) ≠ "") ∧
    (create_result_entry "" (some "pre")
        ⟨7, 5, "log line", 0, none, some "x: 2"⟩).comment =
      some ((if truthyOptStr (some "x: 2") then
                "# Parametrized test: #\n" ++ (some "x: 2" : Option String).getD ""
                  ++ "\n\n"
              else "")
        ++ (if truthyOptStr (some "pre") then (some "pre" : Option String).getD "" ++ "\n"
            else "")
        ++ "# Pytest result: #\n"
        ++ (if COMMENT_SIZE_LIMIT < ("log line" : String).length then
              "Log truncated\n...\n"
            else "")
        ++ "    " ++ indentNewlines (lastChars COMMENT_SIZE_LIMIT "log line")) :=
  ⟨by decide, (c3_comment_blocks "" (some "pre") _).1 (by decide)⟩

/-- Filtering a key class out of an ordered insertion: the inserted element
lands in front of its key class (every element passed over has a strictly
smaller key), so the filtered list gains `a` at the front exactly when `a`
carries the key. -/
theorem filter_orderedInsert_case (c : Nat) (a : ResultRecord)
    (l : List ResultRecord) :
    (List.orderedInsert byCaseId a l).filter (fun r => r.case_id == c) =
      if a.case_id = c then a :: l.filter (fun r => r.case_id == c)
      else l.filter (fun r => r.case_id == c) := by
  induction l with
  | nil =>
    by_cases hac : a.case_id = c <;>
      simp [List.orderedInsert, List.filter_cons, hac]
  | cons b l ih =>
    by_cases hab : byCaseId a b
    · by_cases hac : a.case_id = c <;> by_cases hbc : b.case_id = c <;>
        simp [List.orderedInsert, hab, List.filter_cons, hac, hbc]
    · have hab2 : ¬ (a.case_id ≤ b.case_id) := hab
      by_cases hac : a.case_id = c
      · have hbc : ¬ (b.case_id = c) := by omega
        simp [List.orderedInsert, hab, List.filter_cons, hac, hbc, ih]
      · by_cases hbc : b.case_id = c <;>
          simp [List.orderedInsert, hab, List.filter_cons, hac, hbc, ih]

/-- Stability of the in-place sort: the records carrying a given case id
appear in the sorted list exactly as they were appended. -/
theorem filter_sortResults_case (c : Nat) (l : List ResultRecord) :
    (sortResults l).filter (fun r => r.case_id == c) =
      l.filter (fun r => r.case_id == c) := by
  induction l with
  | nil => rfl
  | cons a l ih =>
    show (List.orderedInsert byCaseId a (sortResults l)).filter
        (fun r => r.case_id == c) = _
    rw [filter_orderedInsert_case]
    by_cases hac : a.case_id = c <;> simp [List.filter_cons, hac, ih]

/-- Sorting preserves membership. -/
theorem mem_sortResults {r : ResultRecord} {l : List ResultRecord} :
    r ∈ sortResults l ↔ r ∈ l :=
  (List.perm_insertionSort byCaseId l).mem_iff

/-- The sorted result list is pairwise ordered by case id. -/
theorem sorted_sortResults (l : List ResultRecord) :
    (sortResults l).Pairwise byCaseId :=
  List.sorted_insertionSort byCaseId l

/-- Building a wire entry keeps the record's case id. -/
theorem create_result_entry_case_id (version : String)
    (custom_comment : Option String) (r : ResultRecord) :
    (create_result_entry version custom_comment r).case_id = r.case_id := rfl

/-- Claim C1 (amended): for every sequence of recorded results the batch
built by `add_results` after the in-place sort is ordered by non-strictly
ascending `case_id`, regardless of recording order and status values; the
order is strictly ascending whenever the recorded case ids are pairwise
distinct (duplicate case ids yield adjacent equal-key entries, so strictness
fails in general). -/
theorem c1_batch_sorted (version : String) (custom_comment : Option String)
    (results : List ResultRecord) :
    ((add_results_batch version custom_comment true [] results).2).Pairwise
        entryLeByCase
    ∧ ((results.map (fun r => r.case_id)).Nodup →
        ((add_results_batch version custom_comment true [] results).2).Pairwise
          entryLtByCase) := by
  have hkept : (add_results_batch version custom_comment true [] results).2 =
      (sortResults results).map (create_result_entry version custom_comment) :=
    rfl
  constructor
  · rw [hkept]
    refine List.pairwise_map.mpr ?_
    exact (sorted_sortResults results).imp (fun h => h)
  · intro hnodup
    rw [hkept]
    refine List.pairwise_map.mpr ?_
    have hperm := List.perm_insertionSort byCaseId results
    have hnodup2 : ((sortResults results).map (fun r => r.case_id)).Nodup :=
      ((hperm.map (fun r => r.case_id)).nodup_iff).mpr hnodup
    have hne : (sortResults results).Pairwise
        (fun a b => a.case_id ≠ b.case_id) := List.pairwise_map.mp hnodup2
    exact ((sorted_sortResults results).and hne).imp
      (fun h => Nat.lt_of_le_of_ne h.1 h.2)

/-- Counterexample to C1 as stated: recording case id 5 twice makes the
batch contain two entries with equal case ids, so the published order is not
strictly ascending. -/
theorem c1_counterexample :
    ¬ ((add_results_batch "" none true []
        [⟨5, 1, "", 0, none, none⟩, ⟨5, 5, "", 0, none, none⟩]).2).Pairwise
        entryLtByCase := by decide

/-- Witness for C1 at two records with distinct case ids 9 and 3. -/
theorem c1_witness :
    (([⟨9, 1, "", 0, none, none⟩, ⟨3, 5, "", 0, none, none⟩] :
        List ResultRecord).map (fun r => r.case_id)).Nodup
    ∧ ((add_results_batch "" none true []
        [⟨9, 1, "", 0, none, none⟩, ⟨3, 5, "", 0, none, none⟩]).2).Pairwise
        entryLtByCase :=
  ⟨by decide, (c1_batch_sorted "" none _).2 (by decide)⟩

/-- Claim C2 (amended): every recorded result — duplicates included —
contributes its own batch entry; the batch entries carrying a given case id
are exactly the wire entries of the records appended with that case id, in
append order, so the most recently appended record's entry is the last of
its case id in the batch (the stable sort never reorders equal case ids). -/
theorem c2_duplicate_case_entries (version : String)
    (custom_comment : Option String) (results : List ResultRecord) (c : Nat) :
    ((add_results_batch version custom_comment true [] results).2).filter
        (fun e => e.case_id == c) =
      (results.filter (fun r => r.case_id == c)).map
        (create_result_entry version custom_comment)
    ∧ (((add_results_batch version custom_comment true [] results).2).filter
        (fun e => e.case_id == c)).getLast? =
      ((results.filter (fun r => r.case_id == c)).getLast?).map
        (create_result_entry version custom_comment) := by
  have h1 : ((add_results_batch version custom_comment true [] results).2).filter
      (fun e => e.case_id == c) =
    (results.filter (fun r => r.case_id == c)).map
      (create_result_entry version custom_comment) := by
    show (((sortResults results).map
        (create_result_entry version custom_comment)).filter
        (fun e => e.case_id == c)) = _
    rw [List.filter_map]
    have h2 : ((fun e : WireEntry => e.case_id == c) ∘
        create_result_entry version custom_comment) =
      (fun r : ResultRecord => r.case_id == c) := rfl
    rw [h2, filter_sortResults_case]
  refine ⟨h1, ?_⟩
  rw [h1]
  exact List.getLast?_map _ _

/-- Counterexample to C2 as stated: two record calls for case id 7 yield two
batch entries for that case id, not exactly one. -/
theorem c2_counterexample :
    (((add_results_batch "" none true []
        [⟨7, 1, "", 0, none, none⟩, ⟨7, 5, "", 0, none, none⟩]).2).countP
        (fun e => e.case_id == 7)) = 2 := by decide

/-- Claim C7: run-target selection is evaluated in priority order — an
available configured plan wins and zeroes the run id; else an available
configured run wins and zeroes the plan id; else `create_test_run` runs with
the full discovered case-id list; and the `pytest_sessionfinish` dispatch
drives publishing through at most one of run id / plan id. -/
theorem c7_run_selection (testrun_id testplan_id : Nat) (re : RemoteSel)
    (tr_keys : List Nat) :
    (testplan_id ≠ 0 → is_testplan_available re.plan_is_completed = true →
      pytest_collection_modifyitems testrun_id testplan_id re tr_keys =
        (0, testplan_id, RunSelection.planSelected))
    ∧ (¬ (testplan_id ≠ 0 ∧ is_testplan_available re.plan_is_completed = true) →
        testrun_id ≠ 0 → is_testrun_available re.run_is_completed = true →
        pytest_collection_modifyitems testrun_id testplan_id re tr_keys =
          (testrun_id, 0, RunSelection.runSelected))
    ∧ (¬ (testplan_id ≠ 0 ∧ is_testplan_available re.plan_is_completed = true) →
        ¬ (testrun_id ≠ 0 ∧ is_testrun_available re.run_is_completed = true) →
        (pytest_collection_modifyitems testrun_id testplan_id re tr_keys).2.2 =
          RunSelection.createRun tr_keys)
    ∧ (∀ rid pid t1 t2 : Nat,
        session_publish_target rid pid = some (PublishTarget.toRun t1) →
        session_publish_target rid pid = some (PublishTarget.toPlan t2) →
        False) := by
  refine ⟨fun h1 h2 => ?_, fun hn h1 h2 => ?_, fun hn1 hn2 => ?_,
    fun rid pid t1 t2 ha hb => ?_⟩
  · simp [pytest_collection_modifyitems, h1, h2]
  · simp [pytest_collection_modifyitems, hn, h1, h2]
  · simp only [pytest_collection_modifyitems, hn1, hn2, if_false]
    cases hre : re.new_run_id <;> simp [hre]
  · rw [ha] at hb
    simp at hb

/-- Witness for C7: a configured, open plan is selected and the run id is
zeroed. -/
theorem c7_witness :
    ((9 : Nat) ≠ 0 ∧ is_testplan_available (some false) = true)
    ∧ pytest_collection_modifyitems 3 9 ⟨some false, some false, none⟩
        [11, 12] = (0, 9, RunSelection.planSelected) :=
  ⟨⟨by decide, by decide⟩,
    (c7_run_selection 3 9 ⟨some false, some false, none⟩ [11, 12]).1
      (by decide) (by decide)⟩

/-- Claim C8: when a plan drives publishing, the publish targets are exactly
the ids of the plan's nested runs whose `is_completed` flag is false, and
`pytest_sessionfinish` hands this very list to the per-run publish loop. -/
theorem c8_plan_targets (resp : PlanResponse)
    (h : get_error resp.error = none) :
    (∀ rid : Nat, rid ∈ get_available_testruns resp ↔
      ∃ e ∈ resp.entries, ∃ r ∈ e.runs, r.is_completed = false ∧ r.id = rid)
    ∧ (∀ plan_id : Nat, plan_id ≠ 0 →
        publish_targets 0 plan_id resp = get_available_testruns resp) := by
  constructor
  · intro rid
    simp only [get_available_testruns, h, List.mem_flatMap, List.mem_map,
      List.mem_filter, Bool.not_eq_true']
    constructor
    · rintro ⟨e, he, r, ⟨hr, hrc⟩, hid⟩
      exact ⟨e, he, r, hr, hrc, hid⟩
    · rintro ⟨e, he, r, hr, hrc, hid⟩
      exact ⟨e, he, r, ⟨hr, hrc⟩, hid⟩
  · intro plan_id hp
    simp [publish_targets, hp]

/-- Witness for C8: a plan with two open runs (ids 10, 12) and one closed
run (id 11) publishes to exactly the two open run ids. -/
theorem c8_witness :
    get_error (PlanResponse.mk none [⟨[⟨10, false⟩, ⟨11, true⟩]⟩,
        ⟨[⟨12, false⟩]⟩]).error = none
    ∧ get_available_testruns
        ⟨none, [⟨[⟨10, false⟩, ⟨11, true⟩]⟩, ⟨[⟨12, false⟩]⟩]⟩ = [10, 12]
    ∧ ((10 : Nat) ∈ get_available_testruns
        ⟨none, [⟨[⟨10, false⟩, ⟨11, true⟩]⟩, ⟨[⟨12, false⟩]⟩]⟩ ↔
      ∃ e ∈ (PlanResponse.mk none [⟨[⟨10, false⟩, ⟨11, true⟩]⟩,
          ⟨[⟨12, false⟩]⟩]).entries,
        ∃ r ∈ e.runs, r.is_completed = false ∧ r.id = 10) :=
  ⟨rfl, by decide,
    (c8_plan_targets
      ⟨none, [⟨[⟨10, false⟩, ⟨11, true⟩]⟩, ⟨[⟨12, false⟩]⟩]⟩ rfl).1 10⟩

/-- Claim C9, evaluated at the failing input: the batch publish succeeded,
the attachment upload for created result 7 (test id 1, case 42, screenshot
present) answered with a service error, and the error-reporting line then
looks up the screenshot of the LAST fetched test (case 99, no screenshot) —
a `KeyError` escapes the publish phase instead of a per-item diagnostic. -/
theorem c9_attach_error_escapes :
    add_results_publish [⟨1, 42, 1⟩, ⟨2, 99, 1⟩] [(42, "screenshots/shot.png")]
      (fun _ => some "denied") ⟨none, [⟨7, 1⟩]⟩ =
      Except.error (PyErr.keyError 99) := rfl

/-- A record surviving the blocked-exclusion filter of `add_results` was
already recorded and its case id is not in the target run's blocked list. -/
theorem mem_add_results_batch_state {version : String}
    {custom_comment : Option String} {tests : List TestInfo}
    {results : List ResultRecord} {r : ResultRecord}
    (hr : r ∈ (add_results_batch version custom_comment false tests results).1) :
    r ∈ results ∧ r.case_id ∉ blocked_case_ids tests := by
  have hr2 : r ∈ (sortResults results).filter
      (fun x => decide (x.case_id ∉ blocked_case_ids tests)) := hr
  have h3 := List.mem_filter.mp hr2
  exact ⟨mem_sortResults.mp h3.1, of_decide_eq_true h3.2⟩

/-- Claim C10: with `publish_blocked` off and a plan publishing to `run1`
then `run2`, a result whose case id is blocked in `run1` is destructively
removed from the shared result list, so it is absent both from the final
result list and from the batch later sent to `run2` — even when `run2` does
not block that case. -/
theorem c10_blocked_exclusion_leak (version : String)
    (custom_comment : Option String) (tests_of : Nat → List TestInfo)
    (run1 run2 : Nat) (results : List ResultRecord) (c : Nat)
    (hblocked : ∃ t ∈ tests_of run1, t.status_id = 2 ∧ t.case_id = c) :
    (∀ r ∈ (session_publish version custom_comment false tests_of results
        [run1, run2]).1, r.case_id ≠ c)
    ∧ (∀ e ∈ ((session_publish version custom_comment false tests_of results
        [run1, run2]).2.getD 1 (0, [])).2, e.case_id ≠ c) := by
  obtain ⟨t, ht, hstat, hcase⟩ := hblocked
  have hcmem : c ∈ blocked_case_ids (tests_of run1) := by
    subst hcase
    refine List.mem_map.mpr ⟨t, List.mem_filter.mpr ⟨ht, ?_⟩, rfl⟩
    rw [hstat]
    decide
  have hstate1 : ∀ r, r ∈ (add_results_batch version custom_comment false
      (tests_of run1) results).1 → r.case_id ≠ c := by
    intro r hr hEq
    exact (mem_add_results_batch_state hr).2 (by rw [hEq]; exact hcmem)
  have hstate2 : ∀ r, r ∈ (add_results_batch version custom_comment false
      (tests_of run2) ((add_results_batch version custom_comment false
        (tests_of run1) results).1)).1 → r.case_id ≠ c := by
    intro r hr
    exact hstate1 r (mem_add_results_batch_state hr).1
  constructor
  · intro r hr
    exact hstate2 r hr
  · intro e he
    have he2 : e ∈ ((add_results_batch version custom_comment false
        (tests_of run2) ((add_results_batch version custom_comment false
          (tests_of run1) results).1)).1).map
        (create_result_entry version custom_comment) := he
    obtain ⟨r, hrmem, hre⟩ := List.mem_map.mp he2
    intro hEq
    apply hstate2 r hrmem
    rw [← hre] at hEq
    exact hEq

/-- Witness for C10: case 7 is blocked in run 1 (and recorded), so the batch
sent to run 2 of the same plan carries no entry for case 7. -/
theorem c10_witness :
    (∃ t ∈ (fun n => if n = 1 then [TestInfo.mk 1 7 2]
        else ([] : List TestInfo)) 1, t.status_id = 2 ∧ t.case_id = 7)
    ∧ ∀ e ∈ ((session_publish "" none false
        (fun n => if n = 1 then [TestInfo.mk 1 7 2] else ([] : List TestInfo))
        [⟨7, 1, "", 0, none, none⟩, ⟨42, 5, "", 0, none, none⟩]
        [1, 2]).2.getD 1 (0, [])).2, e.case_id ≠ 7 :=
  ⟨by decide, (c10_blocked_exclusion_leak "" none _ 1 2 _ 7 (by decide)).2⟩

end PytestTestrail
